import Mathlib

/- Shallow embedding of the micromodels repository (src/micromodels/fields.py
   and src/micromodels/models.py): a declarative field/model coercion engine.
   Python values are modelled by the inductive Value, Python exceptions by Err,
   and fallible Python code by Except Err. Mutable per-call field state
   (self.data, set by populate and read by to_python) is threaded explicitly:
   populate returns the stored value and to_python receives it, which matches
   the source because every to_python call reads the value stored by the
   populate call made immediately before it. -/

namespace Micromodels

/-- Python runtime values reachable by the engine: the wire primitives, the
temporal objects produced by the temporal fields, and model instances
(class name together with the instance dictionary). -/
inductive Value where
  | none
  | bool (b : Bool)
  | int (n : Int)
  | float (q : Rat)
  | str (s : String)
  | list (xs : List Value)
  | dict (entries : List (String × Value))
  | date (y mo d : Nat)
  | datetime (y mo d h mi sec : Nat)
  | time (h mi sec : Nat)
  | inst (cls : String) (attrs : List (String × Value))

/-- Python exceptions raised by the embedded code. outOfFuel marks exhausted
interpreter recursion depth and never corresponds to a Python outcome. -/
inductive Err where
  | typeError (msg : String)
  | valueError (msg : String)
  | attributeError (msg : String)
  | outOfFuel
  deriving DecidableEq

/-- Result of running a piece of embedded Python code. -/
abbrev Res (α : Type) := Except Err α

/-- Association-list lookup, modelling a Python dictionary read. -/
def lookupAssoc {α : Type} : List (String × α) → String → Option α
  | [], _ => Option.none
  | (k, v) :: rest, key => if k = key then some v else lookupAssoc rest key

/-- Association-list write, modelling a Python dictionary store: replace the
existing entry in place, else append (Python insertion order). -/
def updateAssoc {α : Type} : List (String × α) → String → α → List (String × α)
  | [], key, v => [(key, v)]
  | (k, w) :: rest, key, v =>
      if k = key then (key, v) :: rest else (k, w) :: updateAssoc rest key v

/-- Python key membership test on a dictionary. -/
def hasKey {α : Type} (l : List (String × α)) (k : String) : Bool :=
  (lookupAssoc l k).isSome

/-- Python truthiness (bool(x)). In Python 2 a midnight time object is falsy. -/
def pyTruthy : Value → Bool
  | .none => false
  | .bool b => b
  | .int n => decide (n ≠ 0)
  | .float q => decide (q ≠ 0)
  | .str s => decide (s ≠ "")
  | .list xs => !xs.isEmpty
  | .dict es => !es.isEmpty
  | .date _ _ _ => true
  | .datetime _ _ _ _ _ _ => true
  | .time h mi sec => !(h == 0 && mi == 0 && sec == 0)
  | .inst _ _ => true

/-- Zero-padded decimal rendering of a natural number. -/
def pad (width n : Nat) : String :=
  let s := toString n
  if s.length < width then String.mk (List.replicate (width - s.length) '0') ++ s
  else s

/-- Python str()/unicode() of a value. Scalars and the temporal objects are
rendered exactly as Python renders them; the container cases are a simplified
repr that no field conversion exercised by the claims ever reaches. -/
def pyStr : Value → String
  | .none => "None"
  | .bool b => if b then "True" else "False"
  | .int n => toString n
  | .float q => toString q.num ++ "/" ++ toString q.den
  | .str s => s
  | .date y mo d => pad 4 y ++ "-" ++ pad 2 mo ++ "-" ++ pad 2 d
  | .datetime y mo d h mi sec =>
      pad 4 y ++ "-" ++ pad 2 mo ++ "-" ++ pad 2 d ++ " " ++
      pad 2 h ++ ":" ++ pad 2 mi ++ ":" ++ pad 2 sec
  | .time h mi sec => pad 2 h ++ ":" ++ pad 2 mi ++ ":" ++ pad 2 sec
  | .list _ => "[...]"
  | .dict _ => "..."
  | .inst cls _ => cls

/-- The six characters Python str.strip removes by default. -/
def isPySpace (c : Char) : Bool :=
  c == ' ' || c == '\t' || c == '\n' || c == '\r' || c == '\x0b' || c == '\x0c'

/-- Python str.strip(). -/
def pyStrip (s : String) : String :=
  String.mk (((s.toList.dropWhile isPySpace).reverse.dropWhile isPySpace).reverse)

/-- Python str.lower(); ASCII case mapping, which covers every string the
claims exercise. -/
def pyLower (s : String) : String :=
  String.mk (s.toList.map Char.toLower)

/-- Numeric value of a decimal digit character. -/
def digitVal (c : Char) : Nat := c.toNat - '0'.toNat

/-- Decimal digits to a natural number; Option.none when the list is empty or
holds a non-digit. -/
def digitsToNat (cs : List Char) : Option Nat :=
  if cs.isEmpty then Option.none
  else if cs.all Char.isDigit then
    some (cs.foldl (fun acc c => acc * 10 + digitVal c) 0)
  else Option.none

/-- Python int(string): strip whitespace, optional sign, decimal digits. -/
def parseIntString (s : String) : Option Int :=
  match (pyStrip s).toList with
  | '-' :: rest => (digitsToNat rest).map (fun n => -(n : Int))
  | '+' :: rest => (digitsToNat rest).map (fun n => (n : Int))
  | rest => (digitsToNat rest).map (fun n => (n : Int))

/-- Python float(string): sign, digits, optional fractional digits. The
exponent and inf/nan spellings are not modelled; no claim converts a string
to a float. -/
def parseFloatString (s : String) : Option Rat :=
  let build : List Char → Option Rat := fun cs =>
    match cs.span Char.isDigit with
    | (intPart, []) => (digitsToNat intPart).map (fun n => (n : Rat))
    | (intPart, '.' :: fracPart) =>
        if fracPart.all Char.isDigit ∧ ¬(intPart.isEmpty ∧ fracPart.isEmpty) then
          some ((intPart.foldl (fun acc c => acc * 10 + digitVal c) 0 : Rat) +
                (fracPart.foldl (fun acc c => acc * 10 + digitVal c) 0 : Rat) /
                ((10 : Rat) ^ fracPart.length))
        else Option.none
    | _ => Option.none
  match (pyStrip s).toList with
  | '-' :: rest => (build rest).map (fun q => -q)
  | '+' :: rest => build rest
  | rest => build rest

/-- Python int(value) as used by IntegerField.to_python (fields.py:79).
Truncation of a float is toward zero. -/
def pyInt : Value → Res Int
  | .int n => .ok n
  | .bool b => .ok (if b then 1 else 0)
  | .float q =>
      .ok (if q.num < 0 then -((q.num.natAbs / q.den : Nat) : Int)
           else ((q.num.natAbs / q.den : Nat) : Int))
  | .str s =>
      match parseIntString s with
      | some n => .ok n
      | Option.none => .error (.valueError "invalid literal for int")
  | _ => .error (.typeError "int argument must be a string or a number")

/-- Python float(value) as used by FloatField.to_python (fields.py:97). -/
def pyFloat : Value → Res Rat
  | .float q => .ok q
  | .int n => .ok (n : Rat)
  | .bool b => .ok (if b then 1 else 0)
  | .str s =>
      match parseFloatString s with
      | some q => .ok q
      | Option.none => .error (.valueError "could not convert string to float")
  | _ => .error (.typeError "float argument must be a string or a number")

/-- Parse exactly n decimal digits (the strptime %Y directive uses n = 4). -/
def parseExactDigits : Nat → List Char → Nat → Option (Nat × List Char)
  | 0, cs, acc => some (acc, cs)
  | m + 1, c :: rest, acc =>
      if c.isDigit then parseExactDigits m rest (acc * 10 + digitVal c)
      else Option.none
  | _ + 1, [], _ => Option.none

/-- Parse one or two digits giving a value in lo..hi, preferring two digits,
which models the greedy alternation of the CPython strptime regexes for the
numeric directives %m %d %H %M %S. -/
def parse2or1 (lo hi : Nat) : List Char → Option (Nat × List Char)
  | c1 :: c2 :: rest =>
      if c1.isDigit then
        if c2.isDigit ∧ lo ≤ digitVal c1 * 10 + digitVal c2 ∧
            digitVal c1 * 10 + digitVal c2 ≤ hi then
          some (digitVal c1 * 10 + digitVal c2, rest)
        else if lo ≤ digitVal c1 ∧ digitVal c1 ≤ hi then
          some (digitVal c1, c2 :: rest)
        else Option.none
      else Option.none
  | [c1] =>
      if c1.isDigit ∧ lo ≤ digitVal c1 ∧ digitVal c1 ≤ hi then
        some (digitVal c1, [])
      else Option.none
  | [] => Option.none

/-- Core of datetime.strptime: walk the format string against the input,
accumulating year month day hour minute second with the CPython defaults
1900 1 1 0 0 0. The directives appearing in the repository are %Y %m %d
%H %M %S and %%; any other directive fails the parse, and global regex
backtracking is not modelled (the formats exercised never need it). -/
def strptimeAux :
    List Char → List Char → Nat → Nat → Nat → Nat → Nat → Nat →
    Option (Nat × Nat × Nat × Nat × Nat × Nat)
  | [], [], y, mo, d, h, mi, sec => some (y, mo, d, h, mi, sec)
  | [], _ :: _, _, _, _, _, _, _ => Option.none
  | '%' :: 'Y' :: fs, cs, _, mo, d, h, mi, sec =>
      (parseExactDigits 4 cs 0).bind (fun p => strptimeAux fs p.2 p.1 mo d h mi sec)
  | '%' :: 'm' :: fs, cs, y, _, d, h, mi, sec =>
      (parse2or1 1 12 cs).bind (fun p => strptimeAux fs p.2 y p.1 d h mi sec)
  | '%' :: 'd' :: fs, cs, y, mo, _, h, mi, sec =>
      (parse2or1 1 31 cs).bind (fun p => strptimeAux fs p.2 y mo p.1 h mi sec)
  | '%' :: 'H' :: fs, cs, y, mo, d, _, mi, sec =>
      (parse2or1 0 23 cs).bind (fun p => strptimeAux fs p.2 y mo d p.1 mi sec)
  | '%' :: 'M' :: fs, cs, y, mo, d, h, _, sec =>
      (parse2or1 0 59 cs).bind (fun p => strptimeAux fs p.2 y mo d h p.1 sec)
  | '%' :: 'S' :: fs, cs, y, mo, d, h, mi, _ =>
      (parse2or1 0 61 cs).bind (fun p => strptimeAux fs p.2 y mo d h mi p.1)
  | '%' :: '%' :: fs, c :: cs, y, mo, d, h, mi, sec =>
      if c = '%' then strptimeAux fs cs y mo d h mi sec else Option.none
  | '%' :: _ :: _, _, _, _, _, _, _, _ => Option.none
  | ['%'], _, _, _, _, _, _, _ => Option.none
  | c :: fs, c2 :: cs, y, mo, d, h, mi, sec =>
      if c = c2 then strptimeAux fs cs y mo d h mi sec else Option.none
  | _ :: _, [], _, _, _, _, _, _ => Option.none

/-- Gregorian leap year test. -/
def isLeap (y : Nat) : Bool := (y % 4 == 0 && y % 100 != 0) || y % 400 == 0

/-- Days in a month of the Gregorian calendar. -/
def daysInMonth (y mo : Nat) : Nat :=
  if mo = 2 then (if isLeap y then 29 else 28)
  else if mo = 4 ∨ mo = 6 ∨ mo = 9 ∨ mo = 11 then 30 else 31

/-- datetime.datetime.strptime(s, fmt): a failed match raises ValueError, and
a matched but impossible day also raises ValueError when the datetime object
is constructed. -/
def strptime (s fmt : String) : Res (Nat × Nat × Nat × Nat × Nat × Nat) :=
  match strptimeAux fmt.toList s.toList 1900 1 1 0 0 0 with
  | Option.none => .error (.valueError "time data does not match format")
  | some (y, mo, d, h, mi, sec) =>
      if d ≤ daysInMonth y mo then .ok (y, mo, d, h, mi, sec)
      else .error (.valueError "day is out of range for month")

/-- Core of strftime over the broken-out time tuple. Unknown directives are
kept verbatim as glibc does; the repository only uses %Y %m %d %H %M %S. -/
def strftimeAux (y mo d h mi sec : Nat) : List Char → String
  | [] => ""
  | '%' :: 'Y' :: fs => pad 4 y ++ strftimeAux y mo d h mi sec fs
  | '%' :: 'm' :: fs => pad 2 mo ++ strftimeAux y mo d h mi sec fs
  | '%' :: 'd' :: fs => pad 2 d ++ strftimeAux y mo d h mi sec fs
  | '%' :: 'H' :: fs => pad 2 h ++ strftimeAux y mo d h mi sec fs
  | '%' :: 'M' :: fs => pad 2 mi ++ strftimeAux y mo d h mi sec fs
  | '%' :: 'S' :: fs => pad 2 sec ++ strftimeAux y mo d h mi sec fs
  | '%' :: '%' :: fs => "%" ++ strftimeAux y mo d h mi sec fs
  | '%' :: c :: fs => "%" ++ String.singleton c ++ strftimeAux y mo d h mi sec fs
  | ['%'] => "%"
  | c :: fs => String.singleton c ++ strftimeAux y mo d h mi sec fs

/-- value.strftime(fmt). Python 2 rejects years before 1900; only temporal
objects carry the method, anything else raises AttributeError. -/
def strftime (v : Value) (fmt : String) : Res String :=
  match v with
  | .datetime y mo d h mi sec =>
      if y < 1900 then .error (.valueError "year before 1900")
      else .ok (strftimeAux y mo d h mi sec fmt.toList)
  | .date y mo d =>
      if y < 1900 then .error (.valueError "year before 1900")
      else .ok (strftimeAux y mo d 0 0 0 fmt.toList)
  | .time h mi sec => .ok (strftimeAux 1900 1 1 h mi sec fmt.toList)
  | _ => .error (.attributeError "object has no strftime method")

/-- value.isoformat(), defined on the three temporal objects only. -/
def isoformat : Value → Res String
  | .datetime y mo d h mi sec =>
      .ok (pad 4 y ++ "-" ++ pad 2 mo ++ "-" ++ pad 2 d ++ "T" ++
           pad 2 h ++ ":" ++ pad 2 mi ++ ":" ++ pad 2 sec)
  | .date y mo d => .ok (pad 4 y ++ "-" ++ pad 2 mo ++ "-" ++ pad 2 d)
  | .time h mi sec => .ok (pad 2 h ++ ":" ++ pad 2 mi ++ ":" ++ pad 2 sec)
  | _ => .error (.attributeError "object has no isoformat method")

/-- The field schema entries of fields.py, one constructor per class. Every
constructor carries the BaseField parameters source, default, null
(fields.py:17-20); the temporal constructors add format and serial_format
(fields.py:126-129); the wrapped constructors name their nested model class,
and FieldCollectionField carries its inner field instance. The eagerly
validating MX variants are outside every claim and are not modelled. -/
inductive Field where
  | charF (source : Option String) (default : Value) (null : Bool)
  | intF (source : Option String) (default : Value) (null : Bool)
  | floatF (source : Option String) (default : Value) (null : Bool)
  | boolF (source : Option String) (default : Value) (null : Bool)
  | dateTimeF (format : String) (serial_format : Option String)
      (source : Option String) (default : Value) (null : Bool)
  | dateF (format : String) (serial_format : Option String)
      (source : Option String) (default : Value) (null : Bool)
  | timeF (format : String) (serial_format : Option String)
      (source : Option String) (default : Value) (null : Bool)
  | modelF (wrapped : String) (source : Option String) (default : Value) (null : Bool)
  | modelCollectionF (wrapped : String) (source : Option String)
      (default : Value) (null : Bool)
  | fieldCollectionF (inner : Field) (source : Option String)
      (default : Value) (null : Bool)

/-- The source attribute shared by every field (fields.py:18). -/
def Field.source : Field → Option String
  | .charF s _ _ | .intF s _ _ | .floatF s _ _ | .boolF s _ _ => s
  | .dateTimeF _ _ s _ _ | .dateF _ _ s _ _ | .timeF _ _ s _ _ => s
  | .modelF _ s _ _ | .modelCollectionF _ s _ _ | .fieldCollectionF _ s _ _ => s

/-- The default attribute shared by every field (fields.py:19). -/
def Field.default : Field → Value
  | .charF _ d _ | .intF _ d _ | .floatF _ d _ | .boolF _ d _ => d
  | .dateTimeF _ _ _ d _ | .dateF _ _ _ d _ | .timeF _ _ _ d _ => d
  | .modelF _ _ d _ | .modelCollectionF _ _ d _ | .fieldCollectionF _ _ d _ => d

/-- Python iteration (for obj in data): lists yield elements, strings yield
one-character strings, dictionaries yield keys, anything else raises
TypeError. -/
def iterate : Value → Res (List Value)
  | .list xs => .ok xs
  | .str s => .ok (s.toList.map (fun c => .str (String.singleton c)))
  | .dict es => .ok (es.map (fun kv => .str kv.1))
  | _ => .error (.typeError "object is not iterable")

/-- The model classes of a program: class name mapped to the _clsfields
registry that the metaclass collects (models.py:54-60). -/
structure Ctx where
  classes : List (String × List (String × Field))

/-- Look up the field registry of a class. -/
def lookupCls (ctx : Ctx) (cn : String) : Option (List (String × Field)) :=
  lookupAssoc ctx.classes cn

/-- Oracle giving Model.from_dict at the previous interpreter depth. -/
abbrev FromDictO := String → Value → Res Value

/-- Oracle giving Model.to_dict at the previous interpreter depth, over an
explicit field registry because add_field mutates the registry shared with
the class (models.py:130, models.py:59). -/
abbrev ToDictO := List (String × Field) → List (String × Value) → Bool → Res Value

/-- Field.populate. BaseField simply stores the raw value (fields.py:22-24);
ModelField first converts a dictionary through the wrapped class
(fields.py:202-205); ModelCollectionField iterates its input and converts
dictionary elements (fields.py:250-257), raising TypeError on a
non-iterable input such as None. -/
def populate (fd : FromDictO) : Field → Value → Res Value
  | .modelF w _ _ _, v =>
      match v with
      | .dict es => fd w (.dict es)
      | v => .ok v
  | .modelCollectionF w _ _ _, v => do
      let xs ← iterate v
      let ys ← xs.mapM (fun ob =>
        match ob with
        | .dict es => fd w (.dict es)
        | ob => .ok ob)
      .ok (.list ys)
  | _, v => .ok v

/-- Field.to_python applied to the value stored by populate. Scalar fields
follow fields.py:46-112, temporal fields fields.py:131-156 (DateField and
TimeField call .date and .time on the result of the datetime conversion, so
a stored None raises AttributeError there), ModelField rebuilds through
from_dict of data-or-empty-dict (fields.py:207-208), ModelCollectionField
re-runs from_dict on every element (fields.py:259-260), and
FieldCollectionField runs the inner field populate plus to_python pair on
every element of data-or-empty-list (fields.py:333-337). -/
def to_python (fd : FromDictO) : Field → Value → Res Value
  | .charF _ dflt nl, data =>
      match data with
      | .none => if nl then .ok .none else .ok (if pyTruthy dflt then dflt else .str "")
      | v => .ok (.str (pyStr v))
  | .intF _ dflt nl, data =>
      match data with
      | .none => if nl then .ok .none else .ok (if pyTruthy dflt then dflt else .int 0)
      | v => (pyInt v).map Value.int
  | .floatF _ dflt nl, data =>
      match data with
      | .none => if nl then .ok .none else .ok (if pyTruthy dflt then dflt else .float 0)
      | v => (pyFloat v).map Value.float
  | .boolF _ _ _, data =>
      match data with
      | .str s => .ok (.bool (pyLower (pyStrip s) == "true"))
      | .int n => .ok (.bool (decide (0 < n)))
      | .bool b => .ok (.bool b)
      | v => .ok (.bool (pyTruthy v))
  | .dateTimeF fmt _ _ _ _, data =>
      match data with
      | .none => .ok .none
      | v =>
          (strptime (pyStr v) fmt).map
            (fun r => .datetime r.1 r.2.1 r.2.2.1 r.2.2.2.1 r.2.2.2.2.1 r.2.2.2.2.2)
  | .dateF fmt _ _ _ _, data =>
      match data with
      | .none => .error (.attributeError "NoneType object has no date method")
      | v => (strptime (pyStr v) fmt).map (fun r => .date r.1 r.2.1 r.2.2.1)
  | .timeF fmt _ _ _ _, data =>
      match data with
      | .none => .error (.attributeError "NoneType object has no time method")
      | v =>
          (strptime (pyStr v) fmt).map
            (fun r => .time r.2.2.2.1 r.2.2.2.2.1 r.2.2.2.2.2)
  | .modelF w _ _ _, data => fd w (if pyTruthy data then data else .dict [])
  | .modelCollectionF w _ _ _, data => do
      let xs ← iterate data
      let ys ← xs.mapM (fun item => fd w item)
      .ok (.list ys)
  | .fieldCollectionF inner _ _ _, data => do
      let xs ← iterate (if pyTruthy data then data else .list [])
      let ys ← xs.mapM (fun item => populate fd inner item >>= to_python fd inner)
      .ok (.list ys)

/-- Field.to_serial applied to a canonical value. The scalar fields inherit
the BaseField identity (fields.py:34-43); the temporal fields format with
serial_format when it is truthy and isoformat otherwise (fields.py:138-141);
ModelField projects a model instance and degrades everything else to None
because only AttributeError is caught (fields.py:210-214);
ModelCollectionField projects every element, with no such guard
(fields.py:262-263); FieldCollectionField maps the inner field to_serial
(fields.py:339-340). -/
def to_serial (ctx : Ctx) (td : ToDictO) : Field → Value → Res Value
  | .charF _ _ _, v | .intF _ _ _, v | .floatF _ _ _, v | .boolF _ _ _, v => .ok v
  | .dateTimeF _ sf _ _ _, v | .dateF _ sf _ _ _, v | .timeF _ sf _ _ _, v =>
      match sf with
      | some s => if s = "" then (isoformat v).map Value.str else (strftime v s).map Value.str
      | Option.none => (isoformat v).map Value.str
  | .modelF _ _ _ _, v =>
      match v with
      | .inst cn attrs =>
          match lookupCls ctx cn with
          | some fields => td fields attrs true
          | Option.none => .error (.typeError "unknown model class")
      | _ => .ok .none
  | .modelCollectionF _ _ _ _, v => do
      let xs ← iterate v
      let ys ← xs.mapM (fun item =>
        match item with
        | .inst cn attrs =>
            match lookupCls ctx cn with
            | some fields => td fields attrs true
            | Option.none => .error (.typeError "unknown model class")
        | _ => .error (.attributeError "object has no to_dict method"))
      .ok (.list ys)
  | .fieldCollectionF inner _ _ _, v => do
      let xs ← iterate v
      let ys ← xs.mapM (fun item => to_serial ctx td inner item)
      .ok (.list ys)

/-- Model.__setattr__ (models.py:115-121): a key with a matching field is
stored as the result of populate followed by to_python, with no exception
handling; any other key is stored verbatim. -/
def setattrModel (fd : FromDictO) (fields : List (String × Field))
    (instd : List (String × Value)) (key : String) (v : Value) :
    Res (List (String × Value)) :=
  match lookupAssoc fields key with
  | some f => do
      let d ← populate fd f v
      let pyv ← to_python fd f d
      .ok (updateAssoc instd key pyv)
  | Option.none => .ok (updateAssoc instd key v)

/-- Model.to_dict (models.py:133-145) over an explicit registry: every
registered key the instance actually holds is projected, through to_serial
when serial is true. -/
def to_dict (ctx : Ctx) (td : ToDictO) (fields : List (String × Field))
    (instd : List (String × Value)) (serial : Bool) : Res Value :=
  if serial then
    ((fields.filter (fun nf => hasKey instd nf.1)).mapM (fun nf =>
        (to_serial ctx td nf.2 ((lookupAssoc instd nf.1).getD Value.none)).bind
          (fun sv => Except.ok (nf.1, sv)))).bind
      (fun es => Except.ok (Value.dict es))
  else
    Except.ok (Value.dict ((fields.filter (fun nf => hasKey instd nf.1)).map
      (fun nf => (nf.1, (lookupAssoc instd nf.1).getD Value.none))))

/-- Model.set_data (models.py:97-113) with the default flags is_json and
is_binary both false; the json and pickle branches belong to the external
wire and persistence collaborators and are never enabled by the claims. A
same-class instance argument is first projected with to_dict; then every
registered field whose source key (or name) occurs in the data is assigned
through __setattr__. Membership testing in non-mapping data follows the
mapping protocol only, the single case the repository exercises. -/
def set_data (ctx : Ctx) (fd : FromDictO) (td : ToDictO) (cn : String)
    (fields : List (String × Field)) (instd : List (String × Value))
    (data : Value) : Res (List (String × Value)) := do
  let data ←
    match data with
    | .inst cn2 attrs2 =>
        if cn2 = cn then to_dict ctx td fields attrs2 false else .ok (.inst cn2 attrs2)
    | d => .ok d
  match data with
  | .dict es =>
      fields.foldlM (fun acc nf =>
        match lookupAssoc es (nf.2.source.getD nf.1) with
        | some v => setattrModel fd fields acc nf.1 v
        | Option.none => .ok acc) instd
  | _ => .error (.typeError "argument is not iterable")

/-- Model.__init__ (models.py:62-65): store the _extra side dictionary, then
assign every registered field its default through __setattr__. -/
def buildInit (fd : FromDictO) (fields : List (String × Field)) :
    Res (List (String × Value)) :=
  fields.foldlM (fun acc nf => setattrModel fd fields acc nf.1 nf.2.default)
    [("_extra", Value.dict [])]

/-- The fuel-indexed interpreter knot: at each depth the pair gives
Model.from_dict (models.py:75-84) and Model.to_dict, each built from the
previous depth so that nested model recursion is well founded. Fuel
exhaustion never occurs in any theorem below. -/
def engine (ctx : Ctx) : Nat → FromDictO × ToDictO
  | 0 => (fun _ _ => .error .outOfFuel, fun _ _ _ => .error .outOfFuel)
  | fuel + 1 =>
      (fun cn d =>
        match lookupCls ctx cn with
        | Option.none => .error (.typeError "unknown model class")
        | some fields => do
            let inst0 ← buildInit (engine ctx fuel).1 fields
            let inst1 ←
              set_data ctx (engine ctx fuel).1 (engine ctx fuel).2 cn fields inst0 d
            .ok (.inst cn inst1),
       fun fields instd serial => to_dict ctx (engine ctx fuel).2 fields instd serial)

/-- Model.from_dict at a given interpreter depth. -/
def from_dict (ctx : Ctx) (fuel : Nat) (cn : String) (d : Value) : Res Value :=
  (engine ctx fuel).1 cn d

/-- Model.to_dict at a given interpreter depth. -/
def to_dictM (ctx : Ctx) (fuel : Nat) (fields : List (String × Field))
    (instd : List (String × Value)) (serial : Bool) : Res Value :=
  (engine ctx fuel).2 fields instd serial

/-- Field.populate at a given interpreter depth. -/
def populateM (ctx : Ctx) (fuel : Nat) (f : Field) (v : Value) : Res Value :=
  populate (engine ctx fuel).1 f v

/-- Field.to_python at a given interpreter depth. -/
def to_pythonM (ctx : Ctx) (fuel : Nat) (f : Field) (v : Value) : Res Value :=
  to_python (engine ctx fuel).1 f v

/-- Field.to_serial at a given interpreter depth. -/
def to_serialM (ctx : Ctx) (fuel : Nat) (f : Field) (v : Value) : Res Value :=
  to_serial ctx (engine ctx fuel).2 f v

/-- Model.__setattr__ at a given interpreter depth. -/
def setattrM (ctx : Ctx) (fuel : Nat) (fields : List (String × Field))
    (instd : List (String × Value)) (key : String) (v : Value) :
    Res (List (String × Value)) :=
  setattrModel (engine ctx fuel).1 fields instd key v

/-- The assignment conversion pipeline of __setattr__, populate followed by
to_python, applied to one field and one raw value. -/
def convert (ctx : Ctx) (fuel : Nat) (f : Field) (v : Value) : Res Value := do
  let d ← populateM ctx fuel f v
  to_pythonM ctx fuel f d

/-- Instantiating a model class with no data, cls() running Model.__init__
(models.py:62-65). -/
def buildEmpty (ctx : Ctx) (fuel : Nat) (cn : String) :
    Res (List (String × Value)) :=
  match lookupCls ctx cn with
  | Option.none => .error (.typeError "unknown model class")
  | some fields => buildInit (engine ctx fuel).1 fields

/-- Model.from_kwargs (models.py:86-95): build an empty instance, then run
set_data directly on the keyword mapping. -/
def from_kwargs (ctx : Ctx) : Nat → String → List (String × Value) → Res Value
  | 0, _, _ => .error .outOfFuel
  | fuel + 1, cn, kw =>
      match lookupCls ctx cn with
      | Option.none => .error (.typeError "unknown model class")
      | some fields => do
          let inst0 ← buildInit (engine ctx fuel).1 fields
          let inst1 ←
            set_data ctx (engine ctx fuel).1 (engine ctx fuel).2 cn fields inst0
              (.dict kw)
          .ok (.inst cn inst1)

/-- Model.add_field (models.py:123-131). The statement self._fields[key] =
field writes into the dictionary the metaclass shares between the class and
every instance (models.py:59), so the updated registry returned here is the
post-state of the class-level registry; the value is then assigned through
__setattr__ against that updated registry. -/
def add_field (ctx : Ctx) (fuel : Nat) (fields : List (String × Field))
    (instd : List (String × Value)) (key : String) (v : Value) (f : Field) :
    Res (List (String × Field) × List (String × Value)) :=
  (setattrM ctx fuel (updateAssoc fields key f) instd key v) >>=
    (fun i2 => Except.ok (updateAssoc fields key f, i2))

/- Concrete schemas used by the theorems below. -/

/-- A program with no model classes. -/
def ctx0 : Ctx := ⟨[]⟩

/-- Registry of the nested model class N: one plain string field. -/
def fieldsN : List (String × Field) :=
  [("value", Field.charF Option.none Value.none false)]

/-- Program declaring only the nested class N. -/
def ctxN : Ctx := ⟨[("N", fieldsN)]⟩

/-- A date field parsing and serializing month-day-year, with a parseable
default so that Model.__init__ succeeds. -/
def fieldD : Field :=
  Field.dateF "%m-%d-%Y" (some "%m-%d-%Y") Option.none (Value.str "12-31-1999") false

/-- Registry of the model class M holding the date field. -/
def fieldsM : List (String × Field) := [("d", fieldD)]

/-- Program declaring only the class M. -/
def ctxM : Ctx := ⟨[("M", fieldsM)]⟩

/-- Registry of the model class A: field bar reads wire key baz. -/
def fieldsA : List (String × Field) :=
  [("bar", Field.charF (some "baz") Value.none false)]

/-- Program declaring only the class A. -/
def ctxA : Ctx := ⟨[("A", fieldsA)]⟩

/-- Program with class Main holding a collection of N instances. -/
def ctxMain : Ctx :=
  ⟨[("Main", [("items", Field.modelCollectionF "N" Option.none Value.none false)]),
    ("N", fieldsN)]⟩

/-- Registry with a single string field, for the add_field theorems. -/
def fieldsC : List (String × Field) :=
  [("a", Field.charF Option.none Value.none false)]

/-- A fresh field passed to add_field. -/
def newFieldC : Field := Field.intF Option.none Value.none false

/-- A wrapped-object field over the nested class N. -/
def fN : Field := Field.modelF "N" Option.none Value.none false

/-- A boolean field with the constructor defaults. -/
def bF : Field := Field.boolF Option.none Value.none false

/-- A homogeneous collection of dates: parse year-month-day, serialize
month-day-year, as in the FieldCollectionField docstring example. -/
def fcfDate : Field :=
  Field.fieldCollectionF
    (Field.dateF "%Y-%m-%d" (some "%m-%d-%Y") Option.none Value.none false)
    Option.none Value.none false

/- Theorems. -/

/-- Registering a key that the instance dictionary does not hold leaves the
projection base of to_dict unchanged: the new key is filtered out by the
hasattr test and every other registry entry is untouched. -/
theorem filter_hasKey_updateAssoc (instd : List (String × Value)) (k : String)
    (f : Field) (fields : List (String × Field))
    (hk : lookupAssoc instd k = Option.none) :
    (updateAssoc fields k f).filter (fun nf => hasKey instd nf.1)
      = fields.filter (fun nf => hasKey instd nf.1) := by
  have hkb : hasKey instd k = false := by simp [hasKey, hk]
  induction fields with
  | nil => simp [updateAssoc, List.filter, hkb]
  | cons hd tl ih =>
    obtain ⟨k2, f2⟩ := hd
    by_cases h : k2 = k
    · subst h
      simp [updateAssoc, List.filter_cons, hkb]
    · simp only [updateAssoc, if_neg h, List.filter_cons, ih]

/-- C1: the claim (and the Model docstring, models.py:26-43) says that a
failing populate-then-to_python pipeline falls back to a to_serial
validation pass that stores the original value, raising TypeError only when
both fail. The code of __setattr__ (models.py:115-121) has no exception
handling at all: assigning the already canonical date 2020-01-01 to a date
field with format month-day-year lets the ValueError of strptime escape and
stores nothing, even though to_serial accepts that date, so the documented
fallback would have succeeded. -/
theorem C1_setattr_has_no_fallback :
    setattrM ctxM 5 fieldsM [("_extra", Value.dict []), ("d", Value.date 1999 12 31)]
        "d" (Value.date 2020 1 1)
      = .error (.valueError "time data does not match format")
    ∧ to_serialM ctxM 5 fieldD (Value.date 2020 1 1) = .ok (.str "01-01-2020") :=
  ⟨rfl, rfl⟩

/-- C2 counterexample: the claim says from_kwargs assigns each field from the
keyword equal to the field name, ignoring the source attribute. For class A,
whose field bar has source baz, from_kwargs with keyword bar leaves bar at
its empty default instead of storing the given string. -/
theorem C2_counterexample :
    from_kwargs ctxA 10 "A" [("bar", Value.str "x")]
      = .ok (.inst "A" [("_extra", .dict []), ("bar", .str "")])
    ∧ Value.str "" ≠ Value.str "x" :=
  ⟨rfl, fun h => absurd (Value.str.inj h) (by decide)⟩

/-- C2 amended: from_kwargs is equivalent to from_dict applied to the keyword
mapping, with source indirection applying exactly as in set_data: each field
is filled from the keyword named by its source attribute when one is
configured, else by the field name. -/
theorem C2_amended_source_indirection :
    (∀ (ctx : Ctx) (fuel : Nat) (cn : String) (kw : List (String × Value)),
       from_kwargs ctx fuel cn kw = from_dict ctx fuel cn (.dict kw))
    ∧ from_kwargs ctxA 10 "A" [("baz", Value.str "x")]
        = .ok (.inst "A" [("_extra", .dict []), ("bar", .str "x")]) := by
  refine ⟨?_, rfl⟩
  intro ctx fuel cn kw
  cases fuel with
  | zero => rfl
  | succ n => rfl

/-- C3 counterexample: the claim says every scalar field maps a populated
None to None when null is true. BooleanField.to_python (fields.py:103-112)
has no None branch: bool(None) is returned, so a nullable boolean field
yields False, not None. -/
theorem C3_counterexample_boolean_null :
    convert ctx0 5 (Field.boolF Option.none Value.none true) Value.none
      = .ok (.bool false)
    ∧ Value.bool false ≠ Value.none :=
  ⟨rfl, fun h => Value.noConfusion h⟩

/-- C3 amended: for the string, integer and float fields, to_python after
populate(None) yields None when null is true and otherwise default-or-empty,
the configured default when it is truthy and the typed empty value when it
is not; the boolean field ignores both null and default and maps None to
False. -/
theorem C3_amended_scalar_defaults :
    (∀ (src : Option String) (dflt : Value),
       convert ctx0 5 (Field.charF src dflt true) Value.none = .ok .none
       ∧ convert ctx0 5 (Field.charF src dflt false) Value.none
           = .ok (if pyTruthy dflt then dflt else .str "")
       ∧ convert ctx0 5 (Field.intF src dflt true) Value.none = .ok .none
       ∧ convert ctx0 5 (Field.intF src dflt false) Value.none
           = .ok (if pyTruthy dflt then dflt else .int 0)
       ∧ convert ctx0 5 (Field.floatF src dflt true) Value.none = .ok .none
       ∧ convert ctx0 5 (Field.floatF src dflt false) Value.none
           = .ok (if pyTruthy dflt then dflt else .float 0))
    ∧ (∀ (src : Option String) (dflt : Value) (nl : Bool),
       convert ctx0 5 (Field.boolF src dflt nl) Value.none = .ok (.bool false)) :=
  ⟨fun _ _ => ⟨rfl, rfl, rfl, rfl, rfl, rfl⟩, fun _ _ _ => rfl⟩

/-- C4: the claim says every non-MX field accepts any legal input in
populate, naming ModelCollectionField and the None default assigned at
construction. ModelCollectionField.populate (fields.py:250-257) iterates its
input unconditionally, so populate(None) raises TypeError. -/
theorem C4_model_collection_populate_raises :
    populateM ctxN 10 (Field.modelCollectionF "N" Option.none Value.none false)
        Value.none
      = .error (.typeError "object is not iterable") := rfl

/-- C5: the claim says instantiating any model class with no data succeeds
and leaves each field at its schema default. For a class with a
ModelCollectionField, Model.__init__ (models.py:62-65) assigns the default
None through __setattr__, whose populate iterates None and raises TypeError:
construction of the instance fails outright. -/
theorem C5_instantiation_crashes :
    buildEmpty ctxMain 10 "Main" = .error (.typeError "object is not iterable") := rfl

/-- C6 counterexample: the claim says add_field leaves the class-level
declared-field registry unchanged. Because the metaclass aliases _fields to
_clsfields (models.py:59), the write self._fields[key] = field
(models.py:130) lands in the dictionary shared with the class: the returned
registry post-state has gained the new entry. -/
theorem C6_counterexample :
    add_field ctx0 5 fieldsC [("_extra", Value.dict []), ("a", Value.str "")] "b"
        (Value.int 7) newFieldC
      = .ok ([("a", Field.charF Option.none Value.none false), ("b", newFieldC)],
             [("_extra", .dict []), ("a", .str ""), ("b", .int 7)])
    ∧ (updateAssoc fieldsC "b" newFieldC).length ≠ fieldsC.length :=
  ⟨rfl, by decide⟩

/-- C6 amended: add_field writes the new entry into the registry shared with
the class and every instance, then assigns the value through __setattr__
against that updated registry; the to_dict projection of any other instance
holding no value under the new key is nevertheless unchanged, because
to_dict only projects keys the instance dictionary holds. -/
theorem C6_amended_registry_shared (ctx : Ctx) (fuel : Nat)
    (fields : List (String × Field)) (instd instd2 : List (String × Value))
    (k : String) (v : Value) (f : Field) (serial : Bool)
    (hk : lookupAssoc instd2 k = Option.none) :
    add_field ctx fuel fields instd k v f
      = (setattrM ctx fuel (updateAssoc fields k f) instd k v) >>=
          (fun i2 => Except.ok (updateAssoc fields k f, i2))
    ∧ to_dictM ctx fuel (updateAssoc fields k f) instd2 serial
        = to_dictM ctx fuel fields instd2 serial := by
  refine ⟨rfl, ?_⟩
  cases fuel with
  | zero => rfl
  | succ n =>
    show to_dict ctx (engine ctx n).2 (updateAssoc fields k f) instd2 serial
        = to_dict ctx (engine ctx n).2 fields instd2 serial
    unfold to_dict
    rw [filter_hasKey_updateAssoc instd2 k f fields hk]

/-- C6 witness: the amended statement applied to class registry fieldsC, a
fresh key c, and a second instance holding only key a. -/
theorem C6_amended_registry_shared_witness :
    add_field ctx0 5 fieldsC [("_extra", Value.dict []), ("a", Value.str "")] "c"
        (Value.int 1) newFieldC
      = (setattrM ctx0 5 (updateAssoc fieldsC "c" newFieldC)
           [("_extra", Value.dict []), ("a", Value.str "")] "c" (Value.int 1)) >>=
          (fun i2 => Except.ok (updateAssoc fieldsC "c" newFieldC, i2))
    ∧ to_dictM ctx0 5 (updateAssoc fieldsC "c" newFieldC) [("a", Value.str "hi")] true
        = to_dictM ctx0 5 fieldsC [("a", Value.str "hi")] true :=
  C6_amended_registry_shared ctx0 5 fieldsC
    [("_extra", Value.dict []), ("a", Value.str "")] [("a", Value.str "hi")]
    "c" (Value.int 1) newFieldC true rfl

/-- C7 counterexample: the claim says a non-mapping value assigned to a
wrapped-object field is stored as the very value assigned. Assigning None
stores the result of to_python, which is from_dict of the empty dictionary
(fields.py:207-208): a freshly built empty N instance, not None. -/
theorem C7_counterexample :
    convert ctxN 10 fN Value.none
      = .ok (.inst "N" [("_extra", .dict []), ("value", .str "")])
    ∧ Value.inst "N" [("_extra", .dict []), ("value", .str "")] ≠ Value.none :=
  ⟨rfl, fun h => Value.noConfusion h⟩

/-- C7 amended: ModelField.populate does pass every non-mapping value through
unchanged, but the canonical value stored by an assignment is the result of
to_python, which rebuilds through from_dict of data-or-empty-dict: None is
replaced by a freshly built empty nested instance, and an already built
instance is replaced by a rebuilt copy holding exactly the declared fields. -/
theorem C7_amended_pipeline_rebuilds :
    (∀ (fd : FromDictO) (w : String) (s : Option String) (dflt : Value) (nl : Bool),
       populate fd (Field.modelF w s dflt nl) Value.none = .ok Value.none
       ∧ (∀ b, populate fd (Field.modelF w s dflt nl) (.bool b) = .ok (.bool b))
       ∧ (∀ n, populate fd (Field.modelF w s dflt nl) (.int n) = .ok (.int n))
       ∧ (∀ q, populate fd (Field.modelF w s dflt nl) (.float q) = .ok (.float q))
       ∧ (∀ s2, populate fd (Field.modelF w s dflt nl) (.str s2) = .ok (.str s2))
       ∧ (∀ xs, populate fd (Field.modelF w s dflt nl) (.list xs) = .ok (.list xs))
       ∧ (∀ y mo d, populate fd (Field.modelF w s dflt nl) (.date y mo d)
             = .ok (.date y mo d))
       ∧ (∀ y mo d h mi sec,
            populate fd (Field.modelF w s dflt nl) (.datetime y mo d h mi sec)
              = .ok (.datetime y mo d h mi sec))
       ∧ (∀ h mi sec, populate fd (Field.modelF w s dflt nl) (.time h mi sec)
             = .ok (.time h mi sec))
       ∧ (∀ cn attrs, populate fd (Field.modelF w s dflt nl) (.inst cn attrs)
             = .ok (.inst cn attrs)))
    ∧ convert ctxN 10 fN Value.none
        = .ok (.inst "N" [("_extra", .dict []), ("value", .str "")])
    ∧ convert ctxN 10 fN (.inst "N" [("value", .str "hi"), ("junk", .int 5)])
        = .ok (.inst "N" [("_extra", .dict []), ("value", .str "hi")]) :=
  ⟨fun _ _ _ _ _ =>
    ⟨rfl, fun _ => rfl, fun _ => rfl, fun _ => rfl, fun _ => rfl, fun _ => rfl,
     fun _ _ _ => rfl, fun _ _ _ _ _ _ => rfl, fun _ _ _ => rfl, fun _ _ => rfl⟩,
   rfl, rfl⟩

/-- C8: ModelField.to_serial (fields.py:210-214) catches the AttributeError
of a canonical value lacking to_dict and yields None for every non-instance
value, while a model instance is projected with its own to_dict in serial
mode. -/
theorem C8_model_field_to_serial :
    (∀ (ctx : Ctx) (fuel : Nat) (c : String) (s : Option String) (dflt : Value)
        (nl : Bool),
       to_serialM ctx fuel (Field.modelF c s dflt nl) Value.none = .ok Value.none
       ∧ (∀ b, to_serialM ctx fuel (Field.modelF c s dflt nl) (.bool b) = .ok .none)
       ∧ (∀ n, to_serialM ctx fuel (Field.modelF c s dflt nl) (.int n) = .ok .none)
       ∧ (∀ q, to_serialM ctx fuel (Field.modelF c s dflt nl) (.float q) = .ok .none)
       ∧ (∀ s2, to_serialM ctx fuel (Field.modelF c s dflt nl) (.str s2) = .ok .none)
       ∧ (∀ xs, to_serialM ctx fuel (Field.modelF c s dflt nl) (.list xs) = .ok .none)
       ∧ (∀ es, to_serialM ctx fuel (Field.modelF c s dflt nl) (.dict es) = .ok .none)
       ∧ (∀ y mo d, to_serialM ctx fuel (Field.modelF c s dflt nl) (.date y mo d)
             = .ok .none)
       ∧ (∀ y mo d h mi sec,
            to_serialM ctx fuel (Field.modelF c s dflt nl) (.datetime y mo d h mi sec)
              = .ok .none)
       ∧ (∀ h mi sec, to_serialM ctx fuel (Field.modelF c s dflt nl) (.time h mi sec)
             = .ok .none))
    ∧ (∀ (fuel : Nat) (attrs : List (String × Value)),
         to_serialM ctxN fuel fN (.inst "N" attrs)
           = to_dictM ctxN fuel fieldsN attrs true)
    ∧ to_serialM ctxN 5 fN (.inst "N" [("_extra", .dict []), ("value", .str "x")])
        = .ok (.dict [("value", .str "x")]) :=
  ⟨fun _ _ _ _ _ _ =>
    ⟨rfl, fun _ => rfl, fun _ => rfl, fun _ => rfl, fun _ => rfl, fun _ => rfl,
     fun _ => rfl, fun _ _ _ => rfl, fun _ _ _ _ _ _ => rfl, fun _ _ _ => rfl⟩,
   fun _ _ => rfl, rfl⟩

/-- C9: BooleanField.to_python (fields.py:103-112) converts a string to True
exactly when it equals true after stripping whitespace and lowering case,
converts an integer to True exactly when it is positive (a Python bool is an
integer, so True and False convert to themselves), and converts every other
value by standard truthiness. -/
theorem C9_boolean_coercion :
    (∀ s, convert ctx0 5 bF (.str s)
        = .ok (.bool (pyLower (pyStrip s) == "true")))
    ∧ (∀ s, convert ctx0 5 bF (.str s) = .ok (.bool true)
          ↔ pyLower (pyStrip s) = "true")
    ∧ convert ctx0 5 bF (.str "True") = .ok (.bool true)
    ∧ convert ctx0 5 bF (.str "true") = .ok (.bool true)
    ∧ convert ctx0 5 bF (.str " TRUE ") = .ok (.bool true)
    ∧ convert ctx0 5 bF (.str "false") = .ok (.bool false)
    ∧ (∀ n : Int, convert ctx0 5 bF (.int n) = .ok (.bool (decide (0 < n))))
    ∧ (∀ n : Int, convert ctx0 5 bF (.int n) = .ok (.bool true) ↔ 0 < n)
    ∧ convert ctx0 5 bF (.int 2) = .ok (.bool true)
    ∧ convert ctx0 5 bF (.int 0) = .ok (.bool false)
    ∧ convert ctx0 5 bF Value.none = .ok (.bool (pyTruthy Value.none))
    ∧ (∀ b, convert ctx0 5 bF (.bool b) = .ok (.bool b))
    ∧ (∀ q, convert ctx0 5 bF (.float q) = .ok (.bool (pyTruthy (.float q))))
    ∧ (∀ xs, convert ctx0 5 bF (.list xs) = .ok (.bool (pyTruthy (.list xs))))
    ∧ (∀ es, convert ctx0 5 bF (.dict es) = .ok (.bool (pyTruthy (.dict es))))
    ∧ (∀ y mo d, convert ctx0 5 bF (.date y mo d)
          = .ok (.bool (pyTruthy (.date y mo d))))
    ∧ (∀ y mo d h mi sec, convert ctx0 5 bF (.datetime y mo d h mi sec)
          = .ok (.bool (pyTruthy (.datetime y mo d h mi sec))))
    ∧ (∀ h mi sec, convert ctx0 5 bF (.time h mi sec)
          = .ok (.bool (pyTruthy (.time h mi sec))))
    ∧ (∀ cn attrs, convert ctx0 5 bF (.inst cn attrs)
          = .ok (.bool (pyTruthy (.inst cn attrs)))) := by
  have hs : ∀ s, convert ctx0 5 bF (.str s)
      = .ok (.bool (pyLower (pyStrip s) == "true")) := fun _ => rfl
  have hn : ∀ n : Int, convert ctx0 5 bF (.int n)
      = .ok (.bool (decide (0 < n))) := fun _ => rfl
  refine ⟨hs, ?_, rfl, rfl, rfl, rfl, hn, ?_, rfl, rfl, rfl,
    fun _ => rfl, fun _ => rfl, fun _ => rfl, fun _ => rfl, fun _ _ _ => rfl,
    fun _ _ _ _ _ _ => rfl, fun _ _ _ => rfl, fun _ _ => rfl⟩
  · intro s
    rw [hs s]
    simp [beq_iff_eq]
  · intro n
    rw [hn n]
    simp

/-- C10: FieldCollectionField.to_python (fields.py:333-337) runs the inner
field populate-then-to_python pair over every element of the raw list in
order, treats a populated None as the empty list, and
FieldCollectionField.to_serial (fields.py:339-340) maps the inner field
to_serial over the canonical list; the date example uses parse format
year-month-day and serial format month-day-year. -/
theorem C10_field_collection :
    (∀ (fd : FromDictO) (inner : Field) (s : Option String) (dflt : Value)
        (nl : Bool) (xs : List Value),
       to_python fd (Field.fieldCollectionF inner s dflt nl) (.list xs)
         = (xs.mapM (fun x => populate fd inner x >>= to_python fd inner)) >>=
             (fun ys => Except.ok (Value.list ys)))
    ∧ (∀ (fd : FromDictO) (inner : Field) (s : Option String) (dflt : Value)
        (nl : Bool),
       to_python fd (Field.fieldCollectionF inner s dflt nl) Value.none
         = .ok (.list []))
    ∧ convert ctx0 6 fcfDate (.list [.str "2020-01-01", .str "2020-02-02"])
        = .ok (.list [.date 2020 1 1, .date 2020 2 2])
    ∧ convert ctx0 6 fcfDate Value.none = .ok (.list [])
    ∧ to_serialM ctx0 6 fcfDate (.list [.date 2020 1 1, .date 2020 2 2])
        = .ok (.list [.str "01-01-2020", .str "02-02-2020"])
    ∧ (∀ (ctx : Ctx) (td : ToDictO) (inner : Field) (s : Option String)
        (dflt : Value) (nl : Bool) (xs : List Value),
       to_serial ctx td (Field.fieldCollectionF inner s dflt nl) (.list xs)
         = (xs.mapM (fun item => to_serial ctx td inner item)) >>=
             (fun ys => Except.ok (Value.list ys))) := by
  refine ⟨?_, fun _ _ _ _ _ => rfl, rfl, rfl, rfl, fun _ _ _ _ _ _ _ => rfl⟩
  intro fd inner s dflt nl xs
  cases xs with
  | nil => rfl
  | cons a as => rfl

end Micromodels
